import Mathlib

/-!
Verification of the report rendering and section-composition engine of
`color-anyhow` against its specification.

The development shallowly embeds the renderer of `src/handler.rs` and the
section machinery of `src/section/mod.rs`.  `Display` values that the code
treats as opaque (attached section bodies, the formatted backtrace text, the
formatted span-trace text, cause messages) are represented by the `String`
their `Display` implementation would produce.  Terminal styling
(`ansi_term` escape sequences) is treated as transparent: `paint` is the
identity on the text.  The file models the build with the
`capture-spantrace` feature enabled (the crate's default) and the
non-alternate formatting mode.

Three implementation files of the repository are referenced by the handler
but are not present in the sources available here (`src/writers.rs`,
`src/section/help.rs`, `src/config.rs`); the definitions that depend on
them are modelled from the specification and say so in their doc comments.
-/

namespace ColorAnyhow

/-- `ansi_term::Color`: the eight named colors, 256-palette indexed colors
and 24-bit RGB colors.  The `u8` payloads are modelled as `Nat`; no
arithmetic done on them can overflow `u8`. -/
inductive Color where
  | black
  | red
  | green
  | yellow
  | blue
  | purple
  | cyan
  | white
  | fixed (n : Nat)
  | rgb (r g b : Nat)
deriving DecidableEq

/-- `ColorExt::make_intense` for `ansi_term::Color`
(`src/handler.rs` lines 112-129): named colors become the corresponding
bright fixed color, indexed colors below 8 gain 8, everything else is
returned unchanged (the source's catch-all `other => other` arm). -/
def Color.make_intense : Color → Color
  | .black => .fixed 8
  | .red => .fixed 9
  | .green => .fixed 10
  | .yellow => .fixed 11
  | .blue => .fixed 12
  | .purple => .fixed 13
  | .cyan => .fixed 14
  | .white => .fixed 15
  | .fixed c => if c < 8 then .fixed (c + 8) else .fixed c
  | .rgb r g b => .rgb r g b

/-- One cause of the error chain as the handler observes it: its `Display`
text and, when the `capture-spantrace` feature is on, the rendered text of
the `SpanTrace` payload the cause optionally carries
(`e.span_trace()` in `src/handler.rs`). -/
structure Cause where
  msg : String
  span_trace : Option String
deriving DecidableEq

/-- `HelpInfo` (`src/section/help.rs`, not present in the sources): the
tagged section variants.  Each variant carries the `String` that the
`Display` implementation of its attached body value produces. -/
inductive HelpInfo where
  | error (body : String)
  | custom (body : String)
  | note (body : String)
  | warning (body : String)
  | suggestion (body : String)
deriving DecidableEq

/-- `matches!(s, HelpInfo::Error(_))` from the handler's filters. -/
def HelpInfo.isError : HelpInfo → Bool
  | .error _ => true
  | _ => false

/-- `matches!(s, HelpInfo::Custom(_))` from the handler's filters. -/
def HelpInfo.isCustom : HelpInfo → Bool
  | .custom _ => true
  | _ => false

/-- The rendered body text attached to a section. -/
def HelpInfo.bodyText : HelpInfo → String
  | .error b => b
  | .custom b => b
  | .note b => b
  | .warning b => b
  | .suggestion b => b

/-- Modelled from the spec: the `Display` implementation of `HelpInfo`
(`src/section/help.rs` is missing from the sources).  Per the spec's
section table, `Error` and `Custom` sections print as their own block with
no fixed header, while `Note`, `Warning` and `Suggestion` print their fixed
header text followed by the body. -/
def HelpInfo.display : HelpInfo → String
  | .error b => b
  | .custom b => b
  | .note b => "Note: " ++ b
  | .warning b => "Warning: " ++ b
  | .suggestion b => "Suggestion: " ++ b

/-- The `Handler` state consumed by rendering (`src/lib.rs` lines 388-394):
the optionally captured backtrace and span trace (represented by the text
their formatters produce) and the accumulated section list in insertion
order. -/
structure Handler where
  backtrace : Option String
  span_trace : Option String
  sections : List HelpInfo
deriving DecidableEq

/-- Modelled from the spec: the Conditional Header Writer
(`HeaderWriter` in `src/writers.rs`, missing from the sources).  Per spec
§4.1, the header is written before the first byte of real content and
nothing at all is written when no content ever is.  Because `ready()`
starts a fresh unstarted state for each `write!`, the net effect of one
`write!` through it is a pure function of the written content. -/
def headerWrite (header content : String) : String :=
  if content = "" then "" else header ++ content

/-- Concatenation of the chunks successively written to the output sink. -/
def joinChunks : List String → String
  | [] => ""
  | c :: cs => c ++ joinChunks cs

/-- Split a character stream at newline boundaries; the line list always
has one more entry than the stream has newlines. -/
def breakLines : List Char → List (List Char)
  | [] => [[]]
  | c :: rest =>
    if c = '\n' then [] :: breakLines rest
    else
      match breakLines rest with
      | [] => [[c]]
      | l :: ls => (c :: l) :: ls

/-- Rejoin split lines with newline separators. -/
def glueLines : List String → String
  | [] => ""
  | [l] => l
  | l :: ls => l ++ "\n" ++ glueLines ls

/-- Modelled from the spec (§4.2): the Indentation Writer with a uniform
indent (`indenter::indented(..).with_format(Format::Uniform)` as used by
the handler and by `IndentedSection::fmt`).  Every nonempty line is
prefixed with the indent string; empty lines pass through bare, matching
the writer's skip of indentation for lines with no bytes. -/
def uniformInd (ind s : String) : String :=
  glueLines ((breakLines s.data).map fun l => if l.isEmpty then "" else ind ++ String.mk l)

/-- The numbered indent marker for chain entry `n`: the index right-aligned
to width 4 followed by `": "`, e.g. `"   0: "`. -/
def numberedMarker (n : Nat) : String :=
  let s := toString n
  String.mk (List.replicate (4 - s.length) ' ') ++ s ++ ": "

/-- Modelled from the spec (§4.2): the Indentation Writer in numbered form
(`indenter::indented(f).ind(n)` in the handler's chain loop).  Every
nonempty line of the written text is prefixed with the numbered indent
marker. -/
def numberedInd (n : Nat) (s : String) : String :=
  glueLines ((breakLines s.data).map fun l => if l.isEmpty then "" else numberedMarker n ++ String.mk l)

/-- The handler's chain iterator before enumeration
(`anyhow::Chain::new(error).filter(|e| e.span_trace().is_none())`,
`src/handler.rs` lines 31-34): causes carrying a span-trace payload are
excluded. -/
def filteredChain (chain : List Cause) : List Cause :=
  chain.filter fun c => c.span_trace.isNone

/-- The handler's enumerated chain iterator (`.enumerate()` applied after
the span-trace filter). -/
def chainEntries (chain : List Cause) : List (Nat × Cause) :=
  (filteredChain chain).enum

/-- The chain loop of `Handler::debug` (`src/handler.rs` lines 39-45): for
each enumerated remaining cause, `writeln!(f)` then the cause's message
written through the numbered Indentation Writer.  `Red.make_intense().paint`
is modelled as the identity on the message text. -/
def chainChunks (chain : List Cause) : List String :=
  (chainEntries chain).map fun nc => "\n" ++ numberedInd nc.1 nc.2.msg

/-- `get_deepest_spantrace` (`src/handler.rs` lines 141-148): walk the
chain innermost-first and return the first span-trace payload found. -/
def get_deepest_spantrace (chain : List Cause) : Option String :=
  (chain.reverse.filterMap Cause.span_trace).head?

/-- One `write!(separated.ready(), "{}", section)` of the handler's
`Error`/`Custom` section loops: the section's display text behind the
blank-line conditional header. -/
def sectionChunk (s : HelpInfo) : String :=
  headerWrite "\n\n" s.display

/-- One `write!(f, "\n{}", section)` of the handler's trailing section
loop (`src/handler.rs` line 105): an unconditional newline followed by the
section's display text. -/
def trailingChunk (s : HelpInfo) : String :=
  "\n" ++ s.display

/-- The span-trace block (`src/handler.rs` lines 69-82): the handler's own
captured span trace, or else the deepest one found in the chain, written
through the blank-line conditional header.  `FormattedSpanTrace` (in the
missing `src/writers.rs`) is represented by the text it produces. -/
def spanChunks (h : Handler) (chain : List Cause) : List String :=
  match h.span_trace.orElse fun _ => get_deepest_spantrace chain with
  | some st => [headerWrite "\n\n" st]
  | none => []

/-- `!matches!(s, HelpInfo::Custom(_) | HelpInfo::Error(_))`: the test for
the trailing Note/Warning/Suggestion group. -/
def isOtherSection (s : HelpInfo) : Bool :=
  !(s.isCustom || s.isError)

/-- `self.sections.iter().any(|s| !matches!(s, Custom(_) | Error(_)))`
(`src/handler.rs` lines 92-95). -/
def hasOtherSection (sections : List HelpInfo) : Bool :=
  sections.any isOtherSection

/-- The backtrace block of `Handler::debug` (`src/handler.rs` lines
84-98): if a backtrace was captured, its formatted text is written behind
the blank-line conditional header, uniformly indented by two spaces;
otherwise, if any non-`Custom`/non-`Error` section exists, a single
`writeln!(f)` newline is emitted. -/
def btChunks (h : Handler) : List String :=
  match h.backtrace with
  | some bt => [headerWrite "\n\n" (uniformInd "  " bt)]
  | none => if hasOtherSection h.sections then ["\n"] else []

/-- The full sequence of chunks `Handler::debug` writes to the formatter in
non-alternate mode (`src/handler.rs` lines 31-108): the numbered chain,
the `Error` sections, the `Custom` sections, the span-trace block, the
backtrace block (or its substitute blank line), then the trailing
sections. -/
def debugChunks (h : Handler) (chain : List Cause) : List String :=
  chainChunks chain
    ++ (h.sections.filter HelpInfo.isError).map sectionChunk
    ++ (h.sections.filter HelpInfo.isCustom).map sectionChunk
    ++ spanChunks h chain
    ++ btChunks h
    ++ (h.sections.filter isOtherSection).map trailingChunk

/-- The complete text `Handler::debug` renders. -/
def debugRender (h : Handler) (chain : List Cause) : String :=
  joinChunks (debugChunks h chain)

/-- `IndentedSection::fmt` (`src/section/mod.rs` lines 52-79): the body is
written through a three-stage pipeline — the uniform three-space
Indentation Writer, inside a conditional header writer whose header is a
newline, inside a conditional header writer whose header is the section
header.  An empty body therefore suppresses the header entirely. -/
def IndentedSection.fmt (header body : String) : String :=
  headerWrite header (headerWrite "\n" (uniformInd "   " body))

/-- The enriched error value on the `Err` path: its message and the handler
state holding the accumulated sections. -/
structure Report where
  msg : String
  handler : Handler
deriving DecidableEq

/-- Appending one section to a report's handler (the
`handler.sections.push(..)` step shared by all builder operations). -/
def Report.addSection (r : Report) (s : HelpInfo) : Report :=
  { r with handler := { r.handler with sections := r.handler.sections ++ [s] } }

/-- Modelled from the spec (§4.3): `Section::with_section` for `Result`
(`src/section/help.rs` is missing from the sources; the trait contract is
declared in `src/section/mod.rs` lines 184-187).  The closure — modelled
as a thunk producing the section body's display text — is evaluated only
on the `Err` path; an `Ok` receiver is returned unchanged. -/
def with_section {α : Type} (r : Except Report α) (f : Unit → String) : Except Report α :=
  match r with
  | .ok t => .ok t
  | .error e => .error (e.addSection (.custom (f ())))

/-- Modelled from the spec (§4.3): `Section::with_error` for `Result`,
lazily attaching an `Error` section. -/
def with_error {α : Type} (r : Except Report α) (f : Unit → String) : Except Report α :=
  match r with
  | .ok t => .ok t
  | .error e => .error (e.addSection (.error (f ())))

/-- Modelled from the spec (§4.3): `Section::with_note` for `Result`,
lazily attaching a `Note` section. -/
def with_note {α : Type} (r : Except Report α) (f : Unit → String) : Except Report α :=
  match r with
  | .ok t => .ok t
  | .error e => .error (e.addSection (.note (f ())))

/-- Modelled from the spec (§4.3): `Section::with_warning` for `Result`,
lazily attaching a `Warning` section. -/
def with_warning {α : Type} (r : Except Report α) (f : Unit → String) : Except Report α :=
  match r with
  | .ok t => .ok t
  | .error e => .error (e.addSection (.warning (f ())))

/-- Modelled from the spec (§4.3): `Section::with_suggestion` for `Result`,
lazily attaching a `Suggestion` section. -/
def with_suggestion {α : Type} (r : Except Report α) (f : Unit → String) : Except Report α :=
  match r with
  | .ok t => .ok t
  | .error e => .error (e.addSection (.suggestion (f ())))

/-- The error returned by a second `install` call. -/
inductive InstallError where
  | alreadyInstalled
deriving DecidableEq

/-- Modelled from the spec (§4.5, §9): the one-shot global installation
point (`install` in `src/lib.rs` lines 428-430 delegates to
`config::HookBuilder::install`, and `src/config.rs` is missing from the
sources; the state cell is `CONFIG: OnceCell` at `src/lib.rs` line 396).
The state is an explicit single-assignment cell: setting an empty cell
succeeds and fills it; setting a filled cell fails with the
already-installed error and leaves the cell untouched. -/
def install {Hook : Type} (state : Option Hook) (hook : Hook) :
    Except InstallError Unit × Option Hook :=
  match state with
  | none => (.ok (), some hook)
  | some old => (.error .alreadyInstalled, some old)

/-- `ReportHandler::backtrace` (`src/handler.rs` lines 11-20):
`error.backtrace().or_else(|| self.backtrace.as_ref()).expect(..)`.  The
`expect` panic is modelled by the `none` result: the accessor returns
`none` exactly when the source would panic. -/
def handlerBacktrace (h : Handler) (errBt : Option String) : Option String :=
  errBt.orElse fun _ => h.backtrace

/-- The renderer's output in the shape the spec words it (§4.4, §8): the
chain, then all `Error` sections, then all `Custom` sections, then the
trace blocks, then all trailing Note/Warning/Suggestion sections, each
group taken from the section list in insertion order. -/
def debugRenderGrouped (h : Handler) (chain : List Cause) : String :=
  joinChunks (chainChunks chain)
    ++ joinChunks ((h.sections.filter HelpInfo.isError).map sectionChunk)
    ++ joinChunks ((h.sections.filter HelpInfo.isCustom).map sectionChunk)
    ++ joinChunks (spanChunks h chain)
    ++ joinChunks (btChunks h)
    ++ joinChunks ((h.sections.filter isOtherSection).map trailingChunk)

theorem joinChunks_append (a b : List String) :
    joinChunks (a ++ b) = joinChunks a ++ joinChunks b := by
  induction a with
  | nil => simp [joinChunks, String.empty_append]
  | cons c cs ih => simp [joinChunks, ih, String.append_assoc]

theorem joinChunks_middle_empty (a b : List String) :
    joinChunks (a ++ "" :: b) = joinChunks (a ++ b) := by
  induction a with
  | nil => simp [joinChunks, String.empty_append]
  | cons c cs ih => simp [joinChunks, ih]

theorem filteredChain_length (chain : List Cause) :
    (filteredChain chain).length
      = chain.length - chain.countP fun c => c.span_trace.isSome := by
  induction chain with
  | nil => rfl
  | cons c cs ih =>
    have hle : (cs.countP fun c => c.span_trace.isSome) ≤ cs.length :=
      List.countP_le_length _
    simp only [filteredChain] at ih ⊢
    cases hcs : c.span_trace <;>
      simp only [List.filter_cons, List.countP_cons, List.length_cons, hcs,
        Option.isNone_none, Option.isNone_some, Option.isSome_none, Option.isSome_some,
        if_true, if_false, Bool.false_eq_true, List.length] <;>
      omega

/-- C1 (counterexample): the claim that an empty rendered body suppresses
all output holds for every section variant is false.  A `Note` section
whose body renders to no bytes still makes the renderer emit the
unconditional newline of the trailing-section loop, the blank-line
substitute for the missing backtrace, and the fixed `"Note: "` header: with
one empty-bodied note the report gains the suffix `"\n\nNote: "` compared
to the report without it. -/
theorem c1_counterexample :
    HelpInfo.bodyText (.note "") = ""
    ∧ debugRender ⟨none, none, [HelpInfo.note ""]⟩ [⟨"boom", none⟩]
        = "\n   0: boom\n\nNote: "
    ∧ debugRender ⟨none, none, []⟩ [⟨"boom", none⟩] = "\n   0: boom" :=
  ⟨rfl, by decide, by decide⟩

/-- C1 (amended): the empty-body suppression invariant holds for the
section variants that are written through the conditional header writer —
an `Error` or `Custom` section whose body renders to no bytes contributes
nothing at all to the report (no header, no separator), and an
`IndentedSection` with an empty body renders to the empty string.
Note/Warning/Suggestion sections are excluded: they always emit a
preceding newline and their fixed header. -/
theorem c1_amended_empty_body_suppression (bt st : Option String)
    (pre post : List HelpInfo) (chain : List Cause) (s : HelpInfo)
    (hs : s = HelpInfo.custom "" ∨ s = HelpInfo.error "") :
    debugRender ⟨bt, st, pre ++ s :: post⟩ chain
        = debugRender ⟨bt, st, pre ++ post⟩ chain
    ∧ ∀ header : String, IndentedSection.fmt header "" = "" := by
  constructor
  · have hbt : btChunks ⟨bt, st, pre ++ s :: post⟩ = btChunks ⟨bt, st, pre ++ post⟩ := by
      rcases hs with rfl | rfl <;> cases bt <;>
        simp [btChunks, hasOtherSection, isOtherSection, List.any_cons,
          HelpInfo.isCustom, HelpInfo.isError]
    have hspan : spanChunks ⟨bt, st, pre ++ s :: post⟩ chain
        = spanChunks ⟨bt, st, pre ++ post⟩ chain := rfl
    rcases hs with rfl | rfl
    · have hErr : (pre ++ HelpInfo.custom "" :: post).filter HelpInfo.isError
          = (pre ++ post).filter HelpInfo.isError := by
        simp [List.filter_append, List.filter_cons, HelpInfo.isError]
      have hOther : (pre ++ HelpInfo.custom "" :: post).filter isOtherSection
          = (pre ++ post).filter isOtherSection := by
        simp [List.filter_append, List.filter_cons, isOtherSection,
          HelpInfo.isCustom, HelpInfo.isError]
      have hCustom : joinChunks (((pre ++ HelpInfo.custom "" :: post).filter
              HelpInfo.isCustom).map sectionChunk)
          = joinChunks (((pre ++ post).filter HelpInfo.isCustom).map sectionChunk) := by
        have : sectionChunk (HelpInfo.custom "") = "" := rfl
        simp [List.filter_append, List.filter_cons, HelpInfo.isCustom, this,
          joinChunks_middle_empty]
      simp only [debugRender, debugChunks, joinChunks_append]
      rw [hErr, hOther, hCustom, hbt, hspan]
    · have hCus : (pre ++ HelpInfo.error "" :: post).filter HelpInfo.isCustom
          = (pre ++ post).filter HelpInfo.isCustom := by
        simp [List.filter_append, List.filter_cons, HelpInfo.isCustom]
      have hOther : (pre ++ HelpInfo.error "" :: post).filter isOtherSection
          = (pre ++ post).filter isOtherSection := by
        simp [List.filter_append, List.filter_cons, isOtherSection,
          HelpInfo.isCustom, HelpInfo.isError]
      have hErr : joinChunks (((pre ++ HelpInfo.error "" :: post).filter
              HelpInfo.isError).map sectionChunk)
          = joinChunks (((pre ++ post).filter HelpInfo.isError).map sectionChunk) := by
        have : sectionChunk (HelpInfo.error "") = "" := rfl
        simp [List.filter_append, List.filter_cons, HelpInfo.isError, this,
          joinChunks_middle_empty]
      simp only [debugRender, debugChunks, joinChunks_append]
      rw [hErr, hOther, hCus, hbt, hspan]
  · intro header
    rfl

/-- Witness for the amended C1 theorem at a concrete input: inserting an
empty-bodied `Custom` section leaves the rendered report unchanged. -/
theorem c1_amended_witness :
    (HelpInfo.custom "" = HelpInfo.custom "" ∨ HelpInfo.custom "" = HelpInfo.error "")
    ∧ debugRender ⟨none, none, [HelpInfo.custom "", HelpInfo.note "n"]⟩ [⟨"boom", none⟩]
        = debugRender ⟨none, none, [HelpInfo.note "n"]⟩ [⟨"boom", none⟩] :=
  ⟨Or.inl rfl,
    (c1_amended_empty_body_suppression none none [] [HelpInfo.note "n"]
      [⟨"boom", none⟩] (HelpInfo.custom "") (Or.inl rfl)).1⟩

/-- C2: in non-alternate mode the number of numbered chain entries equals
the number of causes minus those excluded for carrying a span-trace
payload; every entry chunk begins with the newline written before it, and
the indices attached to the entries are exactly `0, 1, 2, ...`. -/
theorem c2_chain_entry_count (chain : List Cause) :
    (chainChunks chain).length
        = chain.length - (chain.countP fun c => c.span_trace.isSome)
    ∧ (∀ i (h : i < (chainChunks chain).length),
        ((chainChunks chain).get ⟨i, h⟩).data.head? = some '\n')
    ∧ (chainEntries chain).map Prod.fst = List.range (chainChunks chain).length := by
  refine ⟨?_, ?_, ?_⟩
  · simp [chainChunks, chainEntries, List.enum_length, filteredChain_length]
  · intro i h
    simp only [chainChunks, List.get_eq_getElem, List.getElem_map]
    simp [String.data_append]
  · simp [chainChunks, chainEntries, List.enum_length, List.enum_map_fst]

/-- Witness for C2 at a concrete chain: the middle cause carries a
span-trace payload, so the output has two entries, and the first rendered
entry chunk begins with a newline. -/
theorem c2_chain_entry_count_witness :
    ((chainChunks [⟨"a", none⟩, ⟨"b", some "st"⟩, ⟨"c", none⟩]).get
        ⟨0, by decide⟩).data.head? = some '\n' :=
  (c2_chain_entry_count [⟨"a", none⟩, ⟨"b", some "st"⟩, ⟨"c", none⟩]).2.1 0 (by decide)

/-- C3: the single extra newline standing in for the backtrace block (the
blank line before the trailing sections) is emitted exactly when no
backtrace was captured and some section other than `Custom`/`Error`
exists.  When a backtrace was captured the block is a conditional-header
write and is never that lone newline. -/
theorem c3_blank_line_iff (h : Handler) :
    btChunks h = ["\n"]
      ↔ h.backtrace = none ∧ hasOtherSection h.sections = true := by
  cases hb : h.backtrace with
  | none =>
    by_cases ho : hasOtherSection h.sections = true <;> simp [btChunks, hb, ho]
  | some bt =>
    simp only [btChunks, hb]
    constructor
    · intro heq
      exfalso
      have h1 : headerWrite "\n\n" (uniformInd "  " bt) = "\n" := by
        simpa using heq
      by_cases hu : uniformInd "  " bt = ""
      · rw [headerWrite, if_pos hu] at h1
        exact absurd h1 (by decide)
      · rw [headerWrite, if_neg hu] at h1
        have hlen := congrArg String.length h1
        rw [String.length_append] at hlen
        have h2 : ("\n\n" : String).length = 2 := by decide
        have h3 : ("\n" : String).length = 1 := by decide
        omega
    · intro hc
      exact absurd hc.1 (by simp)

/-- C4: the rendered output presents the section groups in the fixed order
`Error`, then `Custom`, then (after the trace blocks) the trailing
Note/Warning/Suggestion sections, and each group is a sublist of the
section list — sections appear within their group in insertion order. -/
theorem c4_section_group_order (h : Handler) (chain : List Cause) :
    debugRender h chain = debugRenderGrouped h chain
    ∧ (h.sections.filter HelpInfo.isError).Sublist h.sections
    ∧ (h.sections.filter HelpInfo.isCustom).Sublist h.sections
    ∧ (h.sections.filter isOtherSection).Sublist h.sections := by
  refine ⟨?_, List.filter_sublist _, List.filter_sublist _, List.filter_sublist _⟩
  simp [debugRender, debugRenderGrouped, debugChunks, joinChunks_append,
    String.append_assoc]

/-- C5: every lazy builder operation applied to an `Ok` receiver returns
the success value unchanged, and the result does not depend on the
supplied closure at all (the closure is never evaluated on the success
path); the closure's value is consulted only on the `Err` path, where it
becomes the new section's body. -/
theorem c5_lazy_builders {α : Type} (t : α) (f : Unit → String) :
    with_section (Except.ok t) f = .ok t
    ∧ with_error (Except.ok t) f = .ok t
    ∧ with_note (Except.ok t) f = .ok t
    ∧ with_warning (Except.ok t) f = .ok t
    ∧ with_suggestion (Except.ok t) f = .ok t
    ∧ (∀ e : Report, with_section (Except.error e : Except Report α) f
        = .error (e.addSection (.custom (f ())))) :=
  ⟨rfl, rfl, rfl, rfl, rfl, fun _ => rfl⟩

/-- C6: global installation is one-shot — installing into the empty cell
succeeds and fills it; a second call on the resulting state fails with the
already-installed error and leaves the originally installed hook in
place. -/
theorem c6_install_once {Hook : Type} (h1 h2 : Hook) :
    install (none : Option Hook) h1 = (.ok (), some h1)
    ∧ install (install (none : Option Hook) h1).2 h2
        = (.error .alreadyInstalled, some h1) :=
  ⟨rfl, rfl⟩

/-- C7: `make_intense` sends each of the eight named colors to the
corresponding bright fixed color 8-15, adds 8 to any indexed color below
8, and leaves every other color value (indexed colors at 8 or above, RGB
colors) unchanged. -/
theorem c7_make_intense_mapping :
    (Color.make_intense .black = .fixed 8
      ∧ Color.make_intense .red = .fixed 9
      ∧ Color.make_intense .green = .fixed 10
      ∧ Color.make_intense .yellow = .fixed 11
      ∧ Color.make_intense .blue = .fixed 12
      ∧ Color.make_intense .purple = .fixed 13
      ∧ Color.make_intense .cyan = .fixed 14
      ∧ Color.make_intense .white = .fixed 15)
    ∧ (∀ n : Nat, n < 8 → Color.make_intense (.fixed n) = .fixed (n + 8))
    ∧ (∀ n : Nat, 8 ≤ n → Color.make_intense (.fixed n) = .fixed n)
    ∧ (∀ r g b : Nat, Color.make_intense (.rgb r g b) = .rgb r g b) := by
  refine ⟨⟨rfl, rfl, rfl, rfl, rfl, rfl, rfl, rfl⟩, ?_, ?_, fun r g b => rfl⟩
  · intro n hn
    simp [Color.make_intense, hn]
  · intro n hn
    simp [Color.make_intense, Nat.not_lt.mpr hn]

/-- Witness for C7 at concrete indexed colors on both sides of the
threshold. -/
theorem c7_make_intense_mapping_witness :
    (3 < 8 ∧ Color.make_intense (.fixed 3) = .fixed 11)
    ∧ (8 ≤ 12 ∧ Color.make_intense (.fixed 12) = .fixed 12) :=
  ⟨⟨by decide, c7_make_intense_mapping.2.1 3 (by decide)⟩,
    ⟨by decide, c7_make_intense_mapping.2.2.1 12 (by decide)⟩⟩

/-- C8: the intensity transform is idempotent on every color value.  It is
total by construction: `Color.make_intense` is a total function covering
every constructor of the color domain, mirroring the source's exhaustive
match with its catch-all arm, so no value is unmapped and no input
panics. -/
theorem c8_make_intense_idempotent (c : Color) :
    Color.make_intense (Color.make_intense c) = Color.make_intense c := by
  cases c with
  | fixed n =>
    by_cases hn : n < 8
    · simp only [Color.make_intense, if_pos hn]
      simp [Color.make_intense, Nat.not_lt.mpr (Nat.le_add_left 8 n)]
    · simp only [Color.make_intense, if_neg hn]
  | black => rfl
  | red => rfl
  | green => rfl
  | yellow => rfl
  | blue => rfl
  | purple => rfl
  | cyan => rfl
  | white => rfl
  | rgb r g b => rfl

/-- C9: index assignment happens after the span-trace exclusion — the
entry at position `i` of the enumerated filtered chain carries exactly the
numeric index `i` (so displayed indices are the contiguous sequence
`0, 1, 2, ...` with no gaps left by excluded causes), and each rendered
chunk shows its entry's own index through the numbered indent writer. -/
theorem c9_chain_indices_contiguous (chain : List Cause) :
    (∀ i : Nat, (chainEntries chain)[i]?
        = ((filteredChain chain)[i]?).map fun c => (i, c))
    ∧ chainChunks chain
        = (chainEntries chain).map fun nc => "\n" ++ numberedInd nc.1 nc.2.msg :=
  ⟨fun i => List.getElem?_enum (filteredChain chain) i, rfl⟩

/-- C10: the backtrace accessor would panic exactly when neither the error
value nor the handler holds a backtrace (the `none` result models the
`expect` panic); under the precondition that the handler captured one, the
panic branch is unreachable and a backtrace is always returned. -/
theorem c10_backtrace_accessor (h : Handler) (errBt : Option String) :
    (handlerBacktrace h errBt = none ↔ errBt = none ∧ h.backtrace = none)
    ∧ (h.backtrace ≠ none → handlerBacktrace h errBt ≠ none) := by
  constructor
  · cases errBt <;> simp [handlerBacktrace, Option.orElse]
  · intro hb
    cases errBt <;> simp [handlerBacktrace, Option.orElse, hb]

/-- Witness for C10: a handler holding a captured backtrace makes the
accessor return a backtrace even when the error value has none. -/
theorem c10_backtrace_accessor_witness :
    (Handler.mk (some "bt") none []).backtrace ≠ none
    ∧ handlerBacktrace (Handler.mk (some "bt") none []) none ≠ none :=
  ⟨by decide, (c10_backtrace_accessor (Handler.mk (some "bt") none []) none).2 (by decide)⟩

end ColorAnyhow
